import Mathlib

/-!
Shallow embedding of `src/app/api/finance/route.ts` (the `POST` handler and its
inner `processToolResponse` function), together with the JavaScript value and
object semantics the handler relies on.

Modelling conventions:
* JavaScript values reaching this code are results of `JSON.parse` plus the
  distinguished `undefined`; they are modelled by the inductive `Json`.
  `Json.undefined` is JavaScript `undefined` (absent property), `Json.null` is
  JavaScript `null`.
* Numbers are modelled exactly as decimals: `Json.num m d` denotes the number
  `m / 10 ^ d`, kept canonical (`d = 0` or `m` not divisible by 10, and zero is
  `num 0 0`).  The handler never performs arithmetic on payload numbers - it
  only tests truthiness and passes them through - so exact decimals are a
  faithful model of the doubles produced by `JSON.parse`.
* Property update (`objUpsert`) keeps the position of an existing key and
  appends a fresh key, matching JavaScript object-literal spread semantics.
* The module is an ES module, hence strict mode: assigning a property of a
  primitive, `null` or `undefined` throws `TypeError`.  Named (non-index)
  properties of arrays are outside the model (no code path here stores one).
* Thrown exceptions are modelled by `Except JsErr`; `JsErr.invalidStructure`
  is the `Error("Invalid chart data structure")` thrown by
  `processToolResponse` and `JsErr.typeError` stands for every runtime
  `TypeError`/`URIError`/`InvalidCharacterError` (the handler never inspects
  an exception beyond `error.message.includes("PERMISSION_DENIED")`, which is
  false for all of these).
-/

inductive Json where
  | undefined : Json
  | null : Json
  | bool (b : Bool) : Json
  | num (m : Int) (d : Nat) : Json
  | str (s : String) : Json
  | arr (elems : List Json) : Json
  | obj (fields : List (String × Json)) : Json
  deriving Repr

inductive JsErr where
  | invalidStructure : JsErr
  | typeError : JsErr
  deriving Repr, DecidableEq

/-- JavaScript truthiness of a value (`!!v`). -/
def truthy : Json → Bool
  | .undefined => false
  | .null => false
  | .bool b => b
  | .num m _ => if m = 0 then false else true
  | .str s => if s = "" then false else true
  | .arr _ => true
  | .obj _ => true

/-- `Array.isArray`. -/
def isArr : Json → Bool
  | .arr _ => true
  | _ => false

def arrElems : Json → List Json
  | .arr xs => xs
  | _ => []

/-- First-match lookup in an object's field list (JavaScript objects produced
by `JSON.parse` have unique keys). Absent keys give `undefined`. -/
def getF : List (String × Json) → String → Json
  | [], _ => .undefined
  | (k', v) :: rest, k => if k' = k then v else getF rest k

def digitsToNat? (cs : List Char) : Option Nat :=
  if cs = [] then none
  else cs.foldl (fun acc c =>
    match acc with
    | none => none
    | some n => if '0' ≤ c ∧ c ≤ '9' then some (n * 10 + (c.toNat - '0'.toNat)) else none)
    (some 0)

/-- Integer rendering, as JavaScript `String(n)` renders integral numbers. -/
def intToString (n : Int) : String :=
  if n < 0 then "-" ++ toString n.natAbs else toString n.natAbs

/-- Decimal rendering of `m / 10 ^ d` (canonical, so no trailing zeros);
matches JavaScript `String(x)` for the short decimals that occur here. -/
def numToString (m : Int) (d : Nat) : String :=
  if d = 0 then intToString m
  else
    let sgn := if m < 0 then "-" else ""
    let ds := (toString m.natAbs).toList
    let padded := List.replicate (d + 1 - ds.length) '0' ++ ds
    sgn ++ String.mk (padded.take (padded.length - d)) ++ "." ++
      String.mk (padded.drop (padded.length - d))

mutual

/-- JavaScript `ToString` coercion (used by computed property keys and by
template literals). -/
def jsToString : Json → String
  | .undefined => "undefined"
  | .null => "null"
  | .bool true => "true"
  | .bool false => "false"
  | .num m d => numToString m d
  | .str s => s
  | .obj _ => "[object Object]"
  | .arr xs => String.intercalate "," (jsArrParts xs)

/-- `Array.prototype.toString` joins elements with `,`, rendering `null` and
`undefined` elements as empty strings. -/
def jsArrParts : List Json → List String
  | [] => []
  | .undefined :: xs => "" :: jsArrParts xs
  | .null :: xs => "" :: jsArrParts xs
  | v :: xs => jsToString v :: jsArrParts xs

end

/-- Property read `v[k]` on a receiver that is not `null`/`undefined`
(those throw; see `jsGet`).  Arrays and strings expose `length` and their
canonical index properties; other primitives have no own properties. -/
def Json.get (v : Json) (k : String) : Json :=
  match v with
  | .obj fs => getF fs k
  | .arr xs =>
    if k = "length" then .num xs.length 0
    else
      match digitsToNat? k.toList with
      | some n => if toString n = k then ((xs.get? n).getD .undefined) else .undefined
      | none => .undefined
  | .str s =>
    if k = "length" then .num s.toList.length 0
    else
      match digitsToNat? k.toList with
      | some n =>
        if toString n = k then
          (match s.toList.get? n with
           | some c => .str (String.mk [c])
           | none => .undefined)
        else .undefined
      | none => .undefined
  | _ => .undefined

/-- Property read `v[k]`: throws `TypeError` on `null`/`undefined` receivers. -/
def jsGet (v : Json) (k : String) : Except JsErr Json :=
  match v with
  | .null => .error .typeError
  | .undefined => .error .typeError
  | v => .ok (v.get k)

/-- `a || b`. -/
def jsOr (a b : Json) : Json := if truthy a then a else b

/-- Object-literal update `\x7b...fs, [k]: v\x7d`: an existing key keeps its
position and gets the new value, a fresh key is appended. -/
def objUpsert : List (String × Json) → String → Json → List (String × Json)
  | [], k, v => [(k, v)]
  | (k', v') :: rest, k, v =>
    if k' = k then (k, v) :: rest else (k', v') :: objUpsert rest k v

/-- Strict-mode property assignment `v[k] = w`: only objects accept it here
(assigning on primitives, `null` or `undefined` throws `TypeError`). -/
def jsSet (v : Json) (k : String) (w : Json) : Except JsErr Json :=
  match v with
  | .obj fs => .ok (.obj (objUpsert fs k w))
  | _ => .error .typeError

/-- `Object.entries`: throws on `null`/`undefined`; arrays and strings
enumerate their indices; other primitives have no own enumerable entries. -/
def objectEntriesE : Json → Except JsErr (List (String × Json))
  | .null => .error .typeError
  | .undefined => .error .typeError
  | .obj fs => .ok fs
  | .arr xs => .ok (xs.enum.map (fun p => (toString p.1, p.2)))
  | .str s => .ok (s.toList.enum.map (fun p => (toString p.1, .str (String.mk [p.2]))))
  | _ => .ok []

/-- `Object.keys`. -/
def objectKeysE (v : Json) : Except JsErr (List String) :=
  match objectEntriesE v with
  | .error e => .error e
  | .ok l => .ok (l.map Prod.fst)

/-- Own enumerable properties picked up by object spread `\x7b...v\x7d`;
primitives other than strings spread to nothing. -/
def spreadFields : Json → List (String × Json)
  | .obj fs => fs
  | .arr xs => xs.enum.map (fun p => (toString p.1, p.2))
  | .str s => s.toList.enum.map (fun p => (toString p.1, .str (String.mk [p.2])))
  | _ => []

/-- The palette token `hsl(var(--chart-N))` assigned to the series at 1-based
position `N` (route.ts line 294). -/
def colorRef (n : Nat) : String := "hsl(var(--chart-" ++ toString n ++ "))"

/-- One step of the `chartConfig` reduce (route.ts lines 289-298):
`(acc, [key, config], index) => (\x7b...acc, [key]: \x7b...config,
color: hsl(var(--chart-index+1))\x7d\x7d)`. -/
def ccStep (acc : List (String × Json)) (p : Nat × String × Json) :
    List (String × Json) :=
  objUpsert acc p.2.1
    (.obj (objUpsert (spreadFields p.2.2) "color" (.str (colorRef (p.1 + 1)))))

/-- `Object.entries(chartData.chartConfig).reduce(..., \x7b\x7d)`:
the recomputed chart configuration. -/
def processChartConfig (entries : List (String × Json)) : List (String × Json) :=
  (entries.enum).foldl ccStep []

/-- `chartData.chart_type === "pie"` (route.ts line 274; note the snake_case
field name, in contrast to the `chartType` field declared by the tool schema
at lines 33-44). -/
def isPieType : Json → Bool
  | .str s => s = "pie"
  | _ => false

/-- The pie-chart `data.map` callback (route.ts lines 275-283).  `valueKey` is
the first key of `chartData.chartConfig` (property access with an `undefined`
key coerces to the string key `"undefined"`), `segmentKey` is
`chartData.config.xAxisKey || "segment"`.  Once the first read on `item`
succeeded, `item` is neither `null` nor `undefined`, so the remaining reads on
`item` cannot throw and are written with the total `Json.get`. -/
def pieMapItem (chartData item : Json) : Except JsErr Json :=
  match jsGet chartData "chartConfig" with
  | .error e => .error e
  | .ok cc =>
  match objectKeysE cc with
  | .error e => .error e
  | .ok ccKeys =>
  let valueKey := ccKeys.head?.getD "undefined"
  match jsGet chartData "config" with
  | .error e => .error e
  | .ok cfg =>
  match jsGet cfg "xAxisKey" with
  | .error e => .error e
  | .ok xk =>
  let segmentKey := jsToString (jsOr xk (.str "segment"))
  match jsGet item segmentKey with
  | .error e => .error e
  | .ok s1 =>
  .ok (.obj [("segment", jsOr s1 (jsOr (item.get "segment")
                (jsOr (item.get "category") (item.get "name")))),
             ("value", jsOr (item.get valueKey) (item.get "value"))])

def mapE (f : α → Except ε β) : List α → Except ε (List β)
  | [] => .ok []
  | x :: xs =>
    match f x, mapE f xs with
    | .error e, _ => .error e
    | .ok _, .error e => .error e
    | .ok y, .ok ys => .ok (y :: ys)

/-- Tail of `processToolResponse` (route.ts lines 288-303): recompute
`chartConfig` and return `\x7b...chartData, chartConfig: processedChartConfig\x7d`. -/
def ptrFinish (chartData : Json) : Except JsErr Json :=
  match jsGet chartData "chartConfig" with
  | .error e => .error e
  | .ok cc =>
  match objectEntriesE cc with
  | .error e => .error e
  | .ok entries =>
    .ok (.obj (objUpsert (spreadFields chartData) "chartConfig"
          (.obj (processChartConfig entries))))

/-- `processToolResponse` (route.ts lines 260-304).  Falsy input returns
`null`; missing/falsy `chart_type`, falsy `data` or non-array `data` throw
`Error("Invalid chart data structure")`; the `"pie"` branch rewrites every
data record and forces `config.xAxisKey = "segment"`; finally `chartConfig`
is recomputed with palette colors. -/
def processToolResponse (toolUseContent : Json) : Except JsErr Json :=
  if truthy toolUseContent = false then .ok .null
  else
    match jsGet toolUseContent "chart_type", jsGet toolUseContent "data" with
    | .error e, _ => .error e
    | _, .error e => .error e
    | .ok ct, .ok dat =>
      if (!truthy ct || !truthy dat || !isArr dat) = true then
        .error .invalidStructure
      else if isPieType ct then
        match mapE (pieMapItem toolUseContent) (arrElems dat) with
        | .error e => .error e
        | .ok newItems =>
          match jsSet toolUseContent "data" (.arr newItems) with
          | .error e => .error e
          | .ok tcA =>
            match jsSet (tcA.get "config") "xAxisKey" (.str "segment") with
            | .error e => .error e
            | .ok cfg2 =>
              match jsSet tcA "config" cfg2 with
              | .error e => .error e
              | .ok tcB => ptrFinish tcB
      else ptrFinish toolUseContent

/-! JSON.parse (route.ts line 252), embedded as a fuel-indexed recursive
descent over the JSON grammar.  Numbers are canonicalised exact decimals;
string escapes follow the JSON grammar, with lone `\uXXXX` surrogate halves
rendered as U+FFFD (Lean strings hold scalar values only; no claim touches
lone surrogates). -/

def skipWs : List Char → List Char
  | [] => []
  | c :: cs =>
    if c == ' ' || c == '\t' || c == '\n' || c == '\r' then skipWs cs else c :: cs

def hexVal? (c : Char) : Option Nat :=
  if '0' ≤ c ∧ c ≤ '9' then some (c.toNat - '0'.toNat)
  else if 'a' ≤ c ∧ c ≤ 'f' then some (c.toNat - 'a'.toNat + 10)
  else if 'A' ≤ c ∧ c ≤ 'F' then some (c.toNat - 'A'.toNat + 10)
  else none

def hex4? (a b c d : Char) : Option Nat :=
  match hexVal? a, hexVal? b, hexVal? c, hexVal? d with
  | some x, some y, some z, some w => some (x * 4096 + y * 256 + z * 16 + w)
  | _, _, _, _ => none

def escChar? (c : Char) : Option Char :=
  if c = '"' then some '"'
  else if c = '\\' then some '\\'
  else if c = '/' then some '/'
  else if c = 'b' then some (Char.ofNat 8)
  else if c = 'f' then some (Char.ofNat 12)
  else if c = 'n' then some '\n'
  else if c = 'r' then some '\r'
  else if c = 't' then some '\t'
  else none

def consChar (c : Char) : Option (List Char × List Char) → Option (List Char × List Char) :=
  Option.map (fun p => (c :: p.1, p.2))

/-- Parse the body of a JSON string after the opening quote; returns the
content and the remainder after the closing quote. -/
def parseStrBody : List Char → Option (List Char × List Char)
  | [] => none
  | '"' :: rest => some ([], rest)
  | '\\' :: 'u' :: a :: b :: c :: d :: tail =>
    let cont := parseStrBody tail
    match hex4? a b c d with
    | none => none
    | some n =>
      if 0xD800 ≤ n ∧ n ≤ 0xDBFF then
        match tail with
        | '\\' :: 'u' :: a2 :: b2 :: c2 :: d2 :: rest2 =>
          (match hex4? a2 b2 c2 d2 with
           | some n2 =>
             if 0xDC00 ≤ n2 ∧ n2 ≤ 0xDFFF then
               consChar (Char.ofNat (0x10000 + (n - 0xD800) * 0x400 + (n2 - 0xDC00)))
                 (parseStrBody rest2)
             else consChar (Char.ofNat 0xFFFD) cont
           | none => consChar (Char.ofNat 0xFFFD) cont)
        | _ => consChar (Char.ofNat 0xFFFD) cont
      else if 0xDC00 ≤ n ∧ n ≤ 0xDFFF then consChar (Char.ofNat 0xFFFD) cont
      else consChar (Char.ofNat n) cont
  | '\\' :: e :: rest =>
    (match escChar? e with
     | some c => consChar c (parseStrBody rest)
     | none => none)
  | c :: rest =>
    if c.toNat < 0x20 then none
    else consChar c (parseStrBody rest)

def takeDigits : List Char → List Char × List Char
  | [] => ([], [])
  | c :: cs =>
    if '0' ≤ c ∧ c ≤ '9' then
      let (ds, rest) := takeDigits cs
      (c :: ds, rest)
    else ([], c :: cs)

def digitsVal (cs : List Char) : Nat :=
  cs.foldl (fun n c => n * 10 + (c.toNat - '0'.toNat)) 0

/-- Canonicalise an exact decimal `m / 10 ^ d`: drop trailing zeros of the
fraction and collapse zero to `(0, 0)`. -/
def stripZeros (m : Int) (d : Nat) : Int × Nat :=
  match d with
  | 0 => (m, 0)
  | d' + 1 =>
    if m = 0 then (0, 0)
    else if m % 10 = 0 then stripZeros (m / 10) d'
    else (m, d' + 1)

/-- Build the canonical `Json.num` from sign, integer digits, fraction digits
and signed exponent digits. -/
def mkNum (neg : Bool) (ds fds : List Char) (eneg : Bool) (eds : List Char) : Json :=
  let mag : Nat := digitsVal (ds ++ fds)
  let m0 : Int := if neg then -(mag : Int) else (mag : Int)
  let e : Int := (if eneg then -(digitsVal eds : Int) else (digitsVal eds : Int)) - (fds.length : Int)
  let (m1, d1) : Int × Nat :=
    if 0 ≤ e then (m0 * ((10 : Int) ^ e.toNat), 0) else (m0, (-e).toNat)
  let p := stripZeros m1 d1
  .num p.1 p.2

/-- Parse a JSON number literal at the head of the input. -/
def parseNum (cs : List Char) : Option (Json × List Char) :=
  let (neg, cs1) := match cs with | '-' :: t => (true, t) | _ => (false, cs)
  let (ds, cs2) := takeDigits cs1
  if ds = [] then none
  else if ds.length > 1 ∧ ds.head? = some '0' then none
  else
    let fp : Option (List Char × List Char) :=
      match cs2 with
      | '.' :: t =>
        let (fds, cs3) := takeDigits t
        if fds = [] then none else some (fds, cs3)
      | _ => some ([], cs2)
    match fp with
    | none => none
    | some (fds, cs3) =>
      match cs3 with
      | 'e' :: t => parseNumExp neg ds fds t
      | 'E' :: t => parseNumExp neg ds fds t
      | _ => some (mkNum neg ds fds false [], cs3)
where
  parseNumExp (neg : Bool) (ds fds t : List Char) : Option (Json × List Char) :=
    let (eneg, t1) := match t with
      | '-' :: t' => (true, t')
      | '+' :: t' => (false, t')
      | _ => (false, t)
    let (eds, t2) := takeDigits t1
    if eds = [] then none else some (mkNum neg ds fds eneg eds, t2)

mutual

def parseVal : Nat → List Char → Option (Json × List Char)
  | 0, _ => none
  | fuel + 1, cs =>
    match skipWs cs with
    | 'n' :: 'u' :: 'l' :: 'l' :: rest => some (.null, rest)
    | 't' :: 'r' :: 'u' :: 'e' :: rest => some (.bool true, rest)
    | 'f' :: 'a' :: 'l' :: 's' :: 'e' :: rest => some (.bool false, rest)
    | '"' :: rest => (parseStrBody rest).map (fun p => (.str (String.mk p.1), p.2))
    | '[' :: rest =>
      (match skipWs rest with
       | ']' :: rest2 => some (.arr [], rest2)
       | _ => parseArrItems fuel rest [])
    | '\x7b' :: rest =>
      (match skipWs rest with
       | '\x7d' :: rest2 => some (.obj [], rest2)
       | _ => parseObjItems fuel rest [])
    | c :: rest =>
      if c == '-' || ('0' ≤ c ∧ c ≤ '9') then parseNum (c :: rest) else none
    | [] => none

def parseArrItems : Nat → List Char → List Json → Option (Json × List Char)
  | 0, _, _ => none
  | fuel + 1, cs, acc =>
    match parseVal fuel cs with
    | none => none
    | some (v, rest) =>
      match skipWs rest with
      | ',' :: rest2 => parseArrItems fuel rest2 (acc ++ [v])
      | ']' :: rest2 => some (.arr (acc ++ [v]), rest2)
      | _ => none

def parseObjItems : Nat → List Char → List (String × Json) → Option (Json × List Char)
  | 0, _, _ => none
  | fuel + 1, cs, acc =>
    match skipWs cs with
    | '"' :: rest =>
      (match parseStrBody rest with
       | none => none
       | some (kcs, rest2) =>
         match skipWs rest2 with
         | ':' :: rest3 =>
           (match parseVal fuel rest3 with
            | none => none
            | some (v, rest4) =>
              match skipWs rest4 with
              | ',' :: rest5 => parseObjItems fuel rest5 (acc ++ [(String.mk kcs, v)])
              | '\x7d' :: rest5 => some (.obj (acc ++ [(String.mk kcs, v)]), rest5)
              | _ => none)
         | _ => none)
    | _ => none

end

/-- `JSON.parse`: `none` models a thrown `SyntaxError`. -/
def jsonParse (s : String) : Option Json :=
  match parseVal (s.toList.length + 1) s.toList with
  | some (v, rest) => if skipWs rest = [] then some v else none
  | none => none

/-! `responseText.match(/```json\n([\s\S]*?)\n```/)` (route.ts line 246):
the matched capture is the text between the first occurrence of "```json\n"
and the first following "\n```"; there is no match if either delimiter is
missing. -/

def startsWithL : List Char → List Char → Bool
  | [], _ => true
  | _ :: _, [] => false
  | p :: ps, c :: cs => p = c && startsWithL ps cs

/-- Index of the first occurrence of `pat` as a contiguous sublist. -/
def findSub (pat : List Char) : List Char → Option Nat
  | [] => if pat = [] then some 0 else none
  | l@(_ :: t) =>
    if startsWithL pat l then some 0 else (findSub pat t).map (· + 1)

def extractJsonBlock (s : String) : Option String :=
  let cs := s.toList
  match findSub ("```json\n".toList) cs with
  | none => none
  | some i =>
    let body := cs.drop (i + 8)
    match findSub ("\n```".toList) body with
    | none => none
    | some j => some (String.mk (body.take j))

/-! `atob` (forgiving-base64 decode) followed by
`decodeURIComponent(escape(...))`, i.e. strict UTF-8 decoding of the decoded
bytes (route.ts line 185).  A `none` models the thrown
`InvalidCharacterError`/`URIError`, caught by the file-processing `catch`. -/

def b64Val? (c : Char) : Option Nat :=
  if 'A' ≤ c ∧ c ≤ 'Z' then some (c.toNat - 'A'.toNat)
  else if 'a' ≤ c ∧ c ≤ 'z' then some (c.toNat - 'a'.toNat + 26)
  else if '0' ≤ c ∧ c ≤ '9' then some (c.toNat - '0'.toNat + 52)
  else if c = '+' then some 62
  else if c = '/' then some 63
  else none

def mapO (f : α → Option β) : List α → Option (List β)
  | [] => some []
  | x :: xs =>
    match f x, mapO f xs with
    | some y, some ys => some (y :: ys)
    | _, _ => none

/-- Reassemble 6-bit groups into bytes; a trailing group of one unit is
invalid, trailing groups of two or three units yield one or two bytes with the
leftover bits discarded. -/
def b64Chunks : List Nat → Option (List Nat)
  | [] => some []
  | [_] => none
  | [a, b] => some [a * 4 + b / 16]
  | [a, b, c] => some [a * 4 + b / 16, (b % 16) * 16 + c / 4]
  | a :: b :: c :: d :: rest =>
    (b64Chunks rest).map (fun bs =>
      (a * 4 + b / 16) :: ((b % 16) * 16 + c / 4) :: ((c % 4) * 64 + d) :: bs)

/-- `atob`: strip ASCII whitespace, allow up to two trailing `=` when the
length is a multiple of four, reject a remainder of one, then decode. -/
def atobBytes (s : String) : Option (List Nat) :=
  let cs := s.toList.filter (fun c =>
    ¬(c == ' ' || c == '\t' || c == '\n' || c == Char.ofNat 12 || c == '\r'))
  let cs :=
    if cs.length % 4 = 0 then
      match cs.reverse with
      | '=' :: '=' :: rest => rest.reverse
      | '=' :: rest => rest.reverse
      | _ => cs
    else cs
  if cs.length % 4 = 1 then none
  else
    match mapO b64Val? cs with
    | none => none
    | some vals => b64Chunks vals

def utf8IsCont (b : Nat) : Bool := 0x80 ≤ b ∧ b ≤ 0xBF

/-- Strict UTF-8 decoding (rejects overlong forms, surrogates and values
above U+10FFFF), as `decodeURIComponent` does. -/
def utf8Decode : List Nat → Option (List Char)
  | [] => some []
  | b :: rest =>
    if b < 0x80 then (utf8Decode rest).map (Char.ofNat b :: ·)
    else if 0xC2 ≤ b ∧ b ≤ 0xDF then
      match rest with
      | b2 :: r =>
        if utf8IsCont b2 then
          (utf8Decode r).map (Char.ofNat ((b - 0xC0) * 64 + (b2 - 0x80)) :: ·)
        else none
      | [] => none
    else if 0xE0 ≤ b ∧ b ≤ 0xEF then
      match rest with
      | b2 :: b3 :: r =>
        let lo := if b = 0xE0 then 0xA0 else 0x80
        let hi := if b = 0xED then 0x9F else 0xBF
        if (lo ≤ b2 ∧ b2 ≤ hi) ∧ utf8IsCont b3 then
          (utf8Decode r).map
            (Char.ofNat ((b - 0xE0) * 4096 + (b2 - 0x80) * 64 + (b3 - 0x80)) :: ·)
        else none
      | _ => none
    else if 0xF0 ≤ b ∧ b ≤ 0xF4 then
      match rest with
      | b2 :: b3 :: b4 :: r =>
        let lo := if b = 0xF0 then 0x90 else 0x80
        let hi := if b = 0xF4 then 0x8F else 0xBF
        if (lo ≤ b2 ∧ b2 ≤ hi) ∧ utf8IsCont b3 ∧ utf8IsCont b4 then
          (utf8Decode r).map
            (Char.ofNat ((b - 0xF0) * 262144 + (b2 - 0x80) * 4096 +
              (b3 - 0x80) * 64 + (b4 - 0x80)) :: ·)
        else none
      | _ => none
    else none

/-- `decodeURIComponent(escape(atob(base64)))`: decode base64 to bytes, then
interpret the bytes as UTF-8 text. -/
def decodeBase64Utf8 (s : String) : Option String :=
  match atobBytes s with
  | none => none
  | some bs => (utf8Decode bs).map String.mk

/-! The `POST` handler (route.ts lines 145-360).  The external model call is a
collaborator: its reply text is the parameter `responseText`, and provider
failures (quota, authentication) are outside the model.  `req.json()` has
already produced the request body value.  `ApiResponse.calledModel` records
whether execution reached the provider calls (`chat.sendMessage`, line 238). -/

structure ApiResponse where
  status : Nat
  body : Json
  calledModel : Bool
  deriving Repr

/-- Message of an exception as observed by the outer catch.  The exact text of
an engine-raised `TypeError` is unspecified; it never contains
`PERMISSION_DENIED`. -/
def errMsg : JsErr → String
  | .invalidStructure => "Invalid chart data structure"
  | .typeError => "TypeError"

/-- The outer catch (route.ts lines 320-359): a `PERMISSION_DENIED` message
gives 401, every other `Error` gives 500 with `details: "API Error"`. -/
def catchResp (e : JsErr) (called : Bool) : ApiResponse :=
  if (findSub ("PERMISSION_DENIED".toList) ((errMsg e).toList)).isSome then
    ⟨401, .obj [("error", .str "Authentication Error"),
                ("details", .str "Invalid API key or authentication failed")], called⟩
  else
    ⟨500, .obj [("error", .str (errMsg e)), ("details", .str "API Error")], called⟩

/-- Formatting of one incoming message (route.ts lines 166-169):
`\x7brole: msg.role === "user" ? "user" : "model", parts: [\x7btext: msg.content\x7d]\x7d`. -/
def formatMsg (m : Json) : Except JsErr Json :=
  match jsGet m "role" with
  | .error e => .error e
  | .ok r =>
    .ok (.obj [("role", .str (match r with
                              | .str s => if s = "user" then "user" else "model"
                              | _ => "model")),
               ("parts", .arr [.obj [("text", m.get "content")]])])

/-- Body of the file-handling `try` (route.ts lines 182-214): decode a textual
attachment and splice it into the last formatted message, or inline an image
attachment; any throw is caught and mapped to the 400 file-processing error. -/
def fileTry (fileData : Json) (msgs : List Json) (fm : List Json) (base64 : Json) :
    Except JsErr (List Json) :=
  if truthy (fileData.get "isText") then
    match decodeBase64Utf8 (jsToString base64) with
    | none => .error .typeError
    | some textContent =>
      match jsGet ((msgs.getLast?).getD .undefined) "content" with
      | .error e => .error e
      | .ok origContent =>
        .ok (fm.set (fm.length - 1)
          (.obj [("role", .str "user"),
                 ("parts", .arr [.obj [("text", .str
                   ("File contents of " ++ jsToString (fileData.get "fileName") ++ ":\n\n" ++
                    textContent ++ "\n\n" ++ jsToString origContent))]])]))
  else
    match fileData.get "mediaType" with
    | .str mt =>
      if startsWithL ("image/".toList) mt.toList then
        match jsGet ((msgs.getLast?).getD .undefined) "content" with
        | .error e => .error e
        | .ok origContent =>
          .ok (fm.set (fm.length - 1)
            (.obj [("role", .str "user"),
                   ("parts", .arr [.obj [("inlineData", .obj [("data", base64),
                                                             ("mimeType", .str mt)])],
                                   .obj [("text", origContent)]])]))
      else .ok fm
    | _ => .error .typeError

inductive PreOut where
  | early (r : ApiResponse) : PreOut
  | proceed (fm : List Json) : PreOut
  deriving Repr

/-- Stages of `POST` before the provider call: body destructuring, `messages`
validation (lines 157-163), message formatting (lines 166-169) and file
handling (lines 172-222).  `early` carries a response already returned (the
400s) or produced by the outer catch for an exception thrown in these stages. -/
def handlerPrelude (body : Json) : PreOut :=
  match body with
  | .null => .early (catchResp .typeError false)
  | .undefined => .early (catchResp .typeError false)
  | _ =>
    let messages := body.get "messages"
    let fileData := body.get "fileData"
    if (!truthy messages || !isArr messages) = true then
      .early ⟨400, .obj [("error", .str "Messages array is required")], false⟩
    else
      match mapE formatMsg (arrElems messages) with
      | .error e => .early (catchResp e false)
      | .ok fm =>
        if truthy fileData then
          let base64 := fileData.get "base64"
          if truthy base64 = false then
            .early ⟨400, .obj [("error", .str "No file data")], false⟩
          else
            match fileTry fileData (arrElems messages) fm base64 with
            | .error _ =>
              .early ⟨400, .obj [("error", .str "Failed to process file content")], false⟩
            | .ok fm2 => .proceed fm2
        else .proceed fm

/-- `formattedMessages[formattedMessages.length - 1].parts[0].text`
(route.ts line 241), evaluated before the second provider call; on an empty
list this dereferences `undefined` and throws. -/
def readLastText (fm : List Json) : Except JsErr Json :=
  match jsGet ((fm.getLast?).getD .undefined) "parts" with
  | .error e => .error e
  | .ok parts =>
    match jsGet parts "0" with
    | .error e => .error e
    | .ok p0 => jsGet p0 "text"

/-- Chart extraction (route.ts lines 246-257) and the success response
(lines 306-319).  `JSON.parse` and `processToolResponse` run inside a local
`try` whose catch only logs: a parse failure leaves both `toolUseContent` and
`chartData` null, a `processToolResponse` throw leaves only `chartData` null
(`toolUseContent` was already assigned). -/
def chartPhase (responseText : String) : ApiResponse :=
  let tu_cd : Json × Json :=
    match extractJsonBlock responseText with
    | none => (.null, .null)
    | some txt =>
      match jsonParse txt with
      | none => (.null, .null)
      | some c =>
        match processToolResponse c with
        | .ok r => (c, r)
        | .error _ => (c, .null)
  ⟨200, .obj [("content", .str responseText),
              ("hasToolUse", .bool (truthy tu_cd.1)),
              ("toolUse", tu_cd.1),
              ("chartData", tu_cd.2)], true⟩

/-- The whole `POST` handler: prelude, provider call (external; its reply is
`responseText`), chart extraction, response emission, with the outer catch
converting exceptions thrown after the provider call. -/
def POSTrun (body : Json) (responseText : String) : ApiResponse :=
  match handlerPrelude body with
  | .early r => r
  | .proceed fm =>
    match readLastText fm with
    | .error e => catchResp e true
    | .ok _ => chartPhase responseText

/-- A minimal well-formed request body: one user message, no attachment. -/
def sampleBody : Json :=
  .obj [("messages", .arr [.obj [("role", .str "user"), ("content", .str "hi")]])]

/-- The spec's text-attachment example request: `fileName: "notes.txt"`,
base64 of `"Q1 rose 10%"`, original last message `"Summarize"`. -/
def exampleFileBody : Json :=
  .obj [("messages", .arr [.obj [("role", .str "user"), ("content", .str "Summarize")]]),
        ("fileData", .obj [("base64", .str "UTEgcm9zZSAxMCU="),
                           ("mediaType", .str "text/plain"),
                           ("isText", .bool true),
                           ("fileName", .str "notes.txt")])]

/-! Helper lemmas about the JavaScript-semantics layer. -/

theorem getF_objUpsert_self (fs : List (String × Json)) (k : String) (v : Json) :
    getF (objUpsert fs k v) k = v := by
  induction fs with
  | nil => simp [objUpsert, getF]
  | cons p rest ih =>
    obtain ⟨k', v'⟩ := p
    by_cases h : k' = k
    · simp [objUpsert, h, getF]
    · simp [objUpsert, h, getF, ih]

theorem getF_objUpsert_ne (fs : List (String × Json)) (k' k : String) (v : Json)
    (h : k' ≠ k) : getF (objUpsert fs k' v) k = getF fs k := by
  induction fs with
  | nil => simp [objUpsert, getF, h]
  | cons p rest ih =>
    obtain ⟨k0, v0⟩ := p
    by_cases h0 : k0 = k'
    · simp [objUpsert, h0, getF, h]
    · simp only [objUpsert, if_neg h0, getF]
      by_cases h1 : k0 = k
      · simp [h1]
      · simp [h1, ih]

theorem objUpsert_append_of_fresh (fs : List (String × Json)) (k : String) (v : Json)
    (h : ∀ p ∈ fs, p.1 ≠ k) : objUpsert fs k v = fs ++ [(k, v)] := by
  induction fs with
  | nil => simp [objUpsert]
  | cons p rest ih =>
    obtain ⟨k0, v0⟩ := p
    have hk0 : k0 ≠ k := h (k0, v0) (by simp)
    simp only [objUpsert, if_neg hk0, List.cons_append, List.cons.injEq, true_and]
    exact ih (fun q hq => h q (by simp [hq]))

theorem mapE_ok (f : α → Except ε β) (g : α → β) (l : List α)
    (h : ∀ x ∈ l, f x = .ok (g x)) : mapE f l = .ok (l.map g) := by
  induction l with
  | nil => rfl
  | cons x xs ih =>
    simp only [mapE, h x (by simp), ih (fun y hy => h y (by simp [hy])), List.map]

theorem jsGet_of_ne (v : Json) (k : String) (h1 : v ≠ .null) (h2 : v ≠ .undefined) :
    jsGet v k = .ok (v.get k) := by
  cases v <;> simp_all [jsGet]

theorem formatMsg_pure (m : Json) (h1 : m ≠ .null) (h2 : m ≠ .undefined) :
    formatMsg m = .ok (.obj [("role", .str (match m.get "role" with
                              | .str s => if s = "user" then "user" else "model"
                              | _ => "model")),
               ("parts", .arr [.obj [("text", m.get "content")]])]) := by
  cases m <;> simp_all [formatMsg, jsGet]

theorem enumFrom_map_key (n : Nat) (fs : List (String × Json)) :
    (List.enumFrom n fs).map (fun p => p.2.1) = fs.map Prod.fst := by
  induction fs generalizing n with
  | nil => rfl
  | cons p rest ih => simp [List.enumFrom, ih]

/-- The `reduce` over enumerated `chartConfig` entries is, for distinct keys,
a plain positional map: each entry is appended with its palette color. -/
theorem foldl_ccStep (l : List (Nat × String × Json)) (acc : List (String × Json))
    (hfresh : ∀ p ∈ l, ∀ q ∈ acc, p.2.1 ≠ q.1)
    (hnd : (l.map (fun p => p.2.1)).Nodup) :
    l.foldl ccStep acc =
      acc ++ l.map (fun p =>
        (p.2.1, Json.obj (objUpsert (spreadFields p.2.2) "color"
          (.str (colorRef (p.1 + 1)))))) := by
  induction l generalizing acc with
  | nil => simp
  | cons p rest ih =>
    have hstep : ccStep acc p =
        acc ++ [(p.2.1, Json.obj (objUpsert (spreadFields p.2.2) "color"
          (.str (colorRef (p.1 + 1)))))] := by
      unfold ccStep
      exact objUpsert_append_of_fresh _ _ _
        (fun q hq h => (hfresh p (by simp) q hq) h.symm)
    have hfresh' : ∀ p' ∈ rest,
        ∀ q ∈ acc ++ [(p.2.1, Json.obj (objUpsert (spreadFields p.2.2) "color"
          (.str (colorRef (p.1 + 1)))))], p'.2.1 ≠ q.1 := by
      intro p' hp' q hq
      rcases List.mem_append.mp hq with hq1 | hq2
      · exact hfresh p' (by simp [hp']) q hq1
      · have hqe : q = (p.2.1, Json.obj (objUpsert (spreadFields p.2.2) "color"
            (.str (colorRef (p.1 + 1))))) := by simpa using hq2
        subst hqe
        simp only [List.map_cons, List.nodup_cons, List.mem_map] at hnd
        exact fun hcontra => hnd.1 ⟨p', hp', hcontra⟩
    rw [List.foldl_cons, hstep, ih _ hfresh' (List.nodup_cons.mp hnd).2]
    simp

theorem jsGet_obj (fs : List (String × Json)) (k : String) :
    jsGet (.obj fs) k = .ok (getF fs k) := rfl

theorem get_obj (fs : List (String × Json)) (k : String) :
    Json.get (.obj fs) k = getF fs k := rfl

theorem truthy_obj (fs : List (String × Json)) : truthy (.obj fs) = true := rfl

theorem pieMapItem_eval (fs ccFs cfgFs : List (String × Json)) (it : Json)
    (hcc : getF fs "chartConfig" = .obj ccFs)
    (hcfg : getF fs "config" = .obj cfgFs)
    (h1 : it ≠ .null) (h2 : it ≠ .undefined) :
    pieMapItem (.obj fs) it = .ok (.obj [
      ("segment", jsOr (it.get (jsToString (jsOr (getF cfgFs "xAxisKey") (.str "segment"))))
         (jsOr (it.get "segment") (jsOr (it.get "category") (it.get "name")))),
      ("value", jsOr (it.get (((ccFs.map Prod.fst).head?).getD "undefined"))
         (it.get "value"))]) := by
  have hit := jsGet_of_ne it (jsToString (jsOr (getF cfgFs "xAxisKey") (.str "segment"))) h1 h2
  simp only [pieMapItem, jsGet_obj, get_obj, hcc, hcfg, objectKeysE, objectEntriesE, hit]

theorem ptr_pie_eval (fs : List (String × Json)) (items : List Json)
    (cfgFs ccFs : List (String × Json))
    (hct : getF fs "chart_type" = .str "pie")
    (hdat : getF fs "data" = .arr items)
    (hcfg : getF fs "config" = .obj cfgFs)
    (hcc : getF fs "chartConfig" = .obj ccFs)
    (hitems : ∀ it ∈ items, it ≠ .null ∧ it ≠ .undefined) :
    processToolResponse (.obj fs) = .ok (.obj (objUpsert
      (objUpsert (objUpsert fs "data" (.arr (items.map (fun it => Json.obj [
          ("segment", jsOr (it.get (jsToString (jsOr (getF cfgFs "xAxisKey") (.str "segment"))))
             (jsOr (it.get "segment") (jsOr (it.get "category") (it.get "name")))),
          ("value", jsOr (it.get (((ccFs.map Prod.fst).head?).getD "undefined"))
             (it.get "value"))]))))
        "config" (.obj (objUpsert cfgFs "xAxisKey" (.str "segment"))))
      "chartConfig" (.obj (processChartConfig ccFs)))) := by
  have hmap := mapE_ok (pieMapItem (.obj fs)) _ items
    (fun it hit => pieMapItem_eval fs ccFs cfgFs it hcc hcfg (hitems it hit).1 (hitems it hit).2)
  have hcfg' : getF (objUpsert fs "data" (.arr (items.map (fun it => Json.obj [
          ("segment", jsOr (it.get (jsToString (jsOr (getF cfgFs "xAxisKey") (.str "segment"))))
             (jsOr (it.get "segment") (jsOr (it.get "category") (it.get "name")))),
          ("value", jsOr (it.get (((ccFs.map Prod.fst).head?).getD "undefined"))
             (it.get "value"))])))) "config" = .obj cfgFs := by
    rw [getF_objUpsert_ne _ _ _ _ (by decide), hcfg]
  simp only [processToolResponse, truthy_obj, jsGet_obj, get_obj, hct, hdat, hmap, hcfg',
    truthy, isArr, isPieType, arrElems, jsSet, ptrFinish, objectEntriesE, spreadFields,
    getF_objUpsert_ne, getF_objUpsert_self, hcc]
  simp [getF_objUpsert_ne _ _ _ _ (show "data" ≠ "chartConfig" by decide),
    getF_objUpsert_ne _ _ _ _ (show "config" ≠ "chartConfig" by decide), hcc]

/-- C1: the claim says the normalizer fails with "Invalid chart data
structure" exactly when `chartType` is absent/empty or `data` is not an
array, and succeeds otherwise.  The code instead validates a snake_case
`chart_type` field (route.ts line 266), which the tool schema declared in the
same file (lines 33-44, `required: ["chartType", ...]`) never produces: this
schema-conforming pie chart, with non-empty `chartType` and array `data`, is
rejected with the invalid-structure error.  The claim matches the declared
schema and the spec; the code's field name is the slip. -/
theorem chart_type_snake_case_rejects_schema_chart :
    processToolResponse (.obj [("chartType", .str "pie"),
      ("config", .obj [("title", .str "Portfolio"), ("description", .str "Split")]),
      ("data", .arr []),
      ("chartConfig", .obj [("value", .obj [("label", .str "Amount")])])]) =
    .error .invalidStructure := rfl

/-- C4: the recomputed `chartConfig` replaces the mapping wholesale: same
keys in the same insertion order; the entry at 0-based index `i` keeps every
original sub-field and gains (or has overwritten) `color =
hsl(var(--chart-(i+1)))`; an empty mapping yields an empty mapping. -/
theorem chartConfig_recolor (fs : List (String × Json))
    (hnd : (fs.map Prod.fst).Nodup) :
    processChartConfig fs = fs.enum.map (fun p =>
      (p.2.1, Json.obj (objUpsert (spreadFields p.2.2) "color"
        (.str (colorRef (p.1 + 1)))))) ∧
    (processChartConfig fs).map Prod.fst = fs.map Prod.fst ∧
    processChartConfig [] = [] ∧
    ∀ i (k : String) (gs : List (String × Json)), fs[i]? = some (k, .obj gs) →
      (processChartConfig fs)[i]? =
        some (k, .obj (objUpsert gs "color" (.str (colorRef (i + 1))))) ∧
      getF (objUpsert gs "color" (.str (colorRef (i + 1)))) "color" =
        .str (colorRef (i + 1)) ∧
      ∀ f, f ≠ "color" →
        getF (objUpsert gs "color" (.str (colorRef (i + 1)))) f = getF gs f := by
  have hnd' : (fs.enum.map (fun p => p.2.1)).Nodup := by
    rw [show fs.enum = List.enumFrom 0 fs from rfl, enumFrom_map_key]
    exact hnd
  have hform : processChartConfig fs = fs.enum.map (fun p =>
      (p.2.1, Json.obj (objUpsert (spreadFields p.2.2) "color"
        (.str (colorRef (p.1 + 1)))))) := by
    unfold processChartConfig
    rw [foldl_ccStep _ [] (fun p _ q hq => absurd hq (List.not_mem_nil q)) hnd']
    simp
  refine ⟨hform, ?_, rfl, ?_⟩
  · rw [hform, List.map_map]
    have : (Prod.fst ∘ fun p : Nat × String × Json =>
        (p.2.1, Json.obj (objUpsert (spreadFields p.2.2) "color"
          (.str (colorRef (p.1 + 1)))))) = fun p : Nat × String × Json => p.2.1 := rfl
    rw [this, show fs.enum = List.enumFrom 0 fs from rfl, enumFrom_map_key]
  · intro i k gs hget
    refine ⟨?_, getF_objUpsert_self gs "color" _, fun f hf =>
      getF_objUpsert_ne gs "color" f _ (Ne.symm hf)⟩
    rw [hform, List.getElem?_map, List.getElem?_enum, hget]
    rfl

/-- C4 witness: a two-entry mapping with distinct keys, recolored. -/
theorem chartConfig_recolor_witness :
    (([("a", Json.obj [("label", Json.str "A")]),
       ("b", Json.obj [("label", Json.str "B"), ("stacked", Json.bool true)])].map
        Prod.fst).Nodup) ∧
    (processChartConfig [("a", Json.obj [("label", Json.str "A")]),
       ("b", Json.obj [("label", Json.str "B"), ("stacked", Json.bool true)])] =
      [("a", Json.obj [("label", Json.str "A"), ("color", Json.str "hsl(var(--chart-1))")]),
       ("b", Json.obj [("label", Json.str "B"), ("stacked", Json.bool true),
                       ("color", Json.str "hsl(var(--chart-2))")])]) :=
  ⟨by decide, by
    have h := chartConfig_recolor
      [("a", Json.obj [("label", Json.str "A")]),
       ("b", Json.obj [("label", Json.str "B"), ("stacked", Json.bool true)])]
      (by decide)
    rw [h.1]
    rfl⟩

theorem jsOr_of_falsy (a b : Json) (h : truthy a = false) : jsOr a b = b := by
  unfold jsOr
  rw [h]
  simp

/-- C10: pie-record field resolution is by truthiness, not key presence:
whenever the field named by the first `chartConfig` key is falsy (0, "",
null, false - or absent), the normalized `value` falls through to the
record's explicit `value` field; and whenever the field named by
`config.xAxisKey || "segment"` is falsy, `segment` falls through to the
`segment`/`category`/`name` chain. -/
theorem falsy_field_resolution_falls_through
    (fs ccRest cfgFs : List (String × Json)) (vk : String) (w : Json) (it : Json)
    (hcc : getF fs "chartConfig" = .obj ((vk, w) :: ccRest))
    (hcfg : getF fs "config" = .obj cfgFs)
    (h1 : it ≠ .null) (h2 : it ≠ .undefined)
    (hvfalsy : truthy (it.get vk) = false) :
    (pieMapItem (.obj fs) it = .ok (.obj [
      ("segment",
        jsOr (it.get (jsToString (jsOr (getF cfgFs "xAxisKey") (.str "segment"))))
          (jsOr (it.get "segment") (jsOr (it.get "category") (it.get "name")))),
      ("value", it.get "value")])) ∧
    (truthy (it.get (jsToString (jsOr (getF cfgFs "xAxisKey") (.str "segment")))) = false →
      pieMapItem (.obj fs) it = .ok (.obj [
        ("segment", jsOr (it.get "segment") (jsOr (it.get "category") (it.get "name"))),
        ("value", it.get "value")])) := by
  have heval := pieMapItem_eval fs ((vk, w) :: ccRest) cfgFs it hcc hcfg h1 h2
  have hkey : ((((vk, w) :: ccRest).map Prod.fst).head?).getD "undefined" = vk := rfl
  rw [hkey] at heval
  rw [jsOr_of_falsy _ _ hvfalsy] at heval
  refine ⟨heval, fun hseg => ?_⟩
  rw [heval, jsOr_of_falsy _ _ hseg]

/-- C10 witness: a pie record whose first-chartConfig-key field is 0 but
whose `value` field is 7 resolves its normalized value to 7, not 0. -/
theorem falsy_field_resolution_witness :
    truthy ((Json.obj [("amount", Json.num 0 0), ("value", Json.num 7 0),
        ("name", Json.str "X")]).get "amount") = false ∧
    pieMapItem (.obj [("chart_type", Json.str "pie"), ("config", Json.obj []),
        ("chartConfig", Json.obj [("amount", Json.obj [("label", Json.str "A")])])])
      (.obj [("amount", Json.num 0 0), ("value", Json.num 7 0), ("name", Json.str "X")]) =
      .ok (.obj [("segment", Json.str "X"), ("value", Json.num 7 0)]) :=
  ⟨rfl, by
    have h := (falsy_field_resolution_falls_through
      [("chart_type", Json.str "pie"), ("config", Json.obj []),
       ("chartConfig", Json.obj [("amount", Json.obj [("label", Json.str "A")])])]
      [] [] "amount" (Json.obj [("label", Json.str "A")])
      (.obj [("amount", Json.num 0 0), ("value", Json.num 7 0), ("name", Json.str "X")])
      rfl rfl (fun h => nomatch h) (fun h => nomatch h) rfl).2 rfl
    rw [h]
    rfl⟩

/-- C3: for every chart description whose chart-type field is `"pie"`, each
data record is rewritten to an object with exactly the two keys `segment` and
`value`: `segment` resolves from the record's field named by
`config.xAxisKey` (defaulting to `"segment"` when that is falsy), else its
`segment` field, else `category`, else `name`; `value` resolves from the
record's field named by the first key of `chartConfig` (the key
`"undefined"` when the mapping is empty), else its explicit `value` field.
Afterwards `config.xAxisKey` equals `"segment"` regardless of input. -/
theorem pie_data_rewrite (fs : List (String × Json)) (items : List Json)
    (cfgFs ccFs : List (String × Json))
    (hct : getF fs "chart_type" = .str "pie")
    (hdat : getF fs "data" = .arr items)
    (hcfg : getF fs "config" = .obj cfgFs)
    (hcc : getF fs "chartConfig" = .obj ccFs)
    (hitems : ∀ it ∈ items, it ≠ .null ∧ it ≠ .undefined) :
    ∃ r, processToolResponse (.obj fs) = .ok r ∧
      r.get "data" = .arr (items.map (fun it => Json.obj [
        ("segment",
          jsOr (it.get (jsToString (jsOr (getF cfgFs "xAxisKey") (.str "segment"))))
            (jsOr (it.get "segment") (jsOr (it.get "category") (it.get "name")))),
        ("value", jsOr (it.get (((ccFs.map Prod.fst).head?).getD "undefined"))
            (it.get "value"))])) ∧
      (r.get "config").get "xAxisKey" = .str "segment" := by
  refine ⟨_, ptr_pie_eval fs items cfgFs ccFs hct hdat hcfg hcc hitems, ?_, ?_⟩
  · rw [get_obj, getF_objUpsert_ne _ _ _ _ (by decide),
      getF_objUpsert_ne _ _ _ _ (by decide), getF_objUpsert_self]
  · rw [get_obj, getF_objUpsert_ne _ _ _ _ (by decide), getF_objUpsert_self,
      get_obj, getF_objUpsert_self]

/-- C3 witness: the spec's own example - pie data keyed by `category` with
`xAxisKey = "category"` - normalizes to `segment`/`value` records and
`xAxisKey = "segment"`. -/
theorem pie_data_rewrite_witness :
    ∃ r, processToolResponse (.obj [("chart_type", Json.str "pie"),
        ("config", Json.obj [("xAxisKey", Json.str "category")]),
        ("data", Json.arr [
          Json.obj [("category", Json.str "Equities"), ("value", Json.num 5500000 0)],
          Json.obj [("category", Json.str "Bonds"), ("value", Json.num 3200000 0)]]),
        ("chartConfig", Json.obj [("value", Json.obj [("label", Json.str "Amount")])])]) =
      .ok r ∧
      r.get "data" = .arr ([
          Json.obj [("category", Json.str "Equities"), ("value", Json.num 5500000 0)],
          Json.obj [("category", Json.str "Bonds"), ("value", Json.num 3200000 0)]].map
        (fun it => Json.obj [
        ("segment",
          jsOr (it.get (jsToString (jsOr (getF [("xAxisKey", Json.str "category")] "xAxisKey")
            (.str "segment"))))
            (jsOr (it.get "segment") (jsOr (it.get "category") (it.get "name")))),
        ("value",
          jsOr (it.get ((([("value", Json.obj [("label", Json.str "Amount")])].map
              Prod.fst).head?).getD "undefined"))
            (it.get "value"))])) ∧
      (r.get "config").get "xAxisKey" = .str "segment" :=
  pie_data_rewrite
    [("chart_type", Json.str "pie"),
     ("config", Json.obj [("xAxisKey", Json.str "category")]),
     ("data", Json.arr [
       Json.obj [("category", Json.str "Equities"), ("value", Json.num 5500000 0)],
       Json.obj [("category", Json.str "Bonds"), ("value", Json.num 3200000 0)]]),
     ("chartConfig", Json.obj [("value", Json.obj [("label", Json.str "Amount")])])]
    [Json.obj [("category", Json.str "Equities"), ("value", Json.num 5500000 0)],
     Json.obj [("category", Json.str "Bonds"), ("value", Json.num 3200000 0)]]
    [("xAxisKey", Json.str "category")]
    [("value", Json.obj [("label", Json.str "Amount")])]
    rfl rfl rfl rfl
    (by
      intro it hit
      simp only [List.mem_cons, List.not_mem_nil, or_false] at hit
      rcases hit with rfl | rfl <;>
        exact ⟨(fun h => nomatch h), (fun h => nomatch h)⟩)

theorem ptrFinish_ok_obj (v r : Json) (h : ptrFinish v = .ok r) :
    ∃ gs, r = .obj gs := by
  unfold ptrFinish at h
  split at h
  · exact absurd h (by simp)
  · split at h
    · exact absurd h (by simp)
    · injection h with h'
      exact ⟨_, h'.symm⟩

theorem ptr_ok_obj (c r : Json) (htr : truthy c = true)
    (h : processToolResponse c = .ok r) : ∃ gs, r = .obj gs := by
  unfold processToolResponse at h
  rw [htr] at h
  simp only [Bool.true_eq_false, if_false] at h
  split at h
  · exact absurd h (by simp)
  · exact absurd h (by simp)
  · split at h
    · exact absurd h (by simp)
    · split at h
      · split at h
        · exact absurd h (by simp)
        · split at h
          · exact absurd h (by simp)
          · split at h
            · exact absurd h (by simp)
            · split at h
              · exact absurd h (by simp)
              · exact ptrFinish_ok_obj _ _ h
      · exact ptrFinish_ok_obj _ _ h

theorem POSTrun_proceed (body : Json) (rt : String) (fm : List Json) (t : Json)
    (hpre : handlerPrelude body = .proceed fm) (hlast : readLastText fm = .ok t) :
    POSTrun body rt = chartPhase rt := by
  simp only [POSTrun, hpre, hlast]

theorem chartPhase_no_parse (rt : String) (txt : String)
    (hex : extractJsonBlock rt = some txt) (hparse : jsonParse txt = none) :
    chartPhase rt = ⟨200, .obj [("content", .str rt), ("hasToolUse", .bool false),
      ("toolUse", .null), ("chartData", .null)], true⟩ := by
  simp only [chartPhase, hex, hparse, truthy]

theorem chartPhase_ptr_err (rt : String) (txt : String) (c : Json) (e : JsErr)
    (hex : extractJsonBlock rt = some txt) (hparse : jsonParse txt = some c)
    (hptr : processToolResponse c = .error e) :
    chartPhase rt = ⟨200, .obj [("content", .str rt), ("hasToolUse", .bool (truthy c)),
      ("toolUse", c), ("chartData", .null)], true⟩ := by
  simp only [chartPhase, hex, hparse, hptr]

theorem chartPhase_ptr_ok (rt : String) (txt : String) (c r : Json)
    (hex : extractJsonBlock rt = some txt) (hparse : jsonParse txt = some c)
    (hptr : processToolResponse c = .ok r) :
    chartPhase rt = ⟨200, .obj [("content", .str rt), ("hasToolUse", .bool (truthy c)),
      ("toolUse", c), ("chartData", r)], true⟩ := by
  simp only [chartPhase, hex, hparse, hptr]

/-- C7: a request whose `messages` field is absent or not an array gets the
400 response `Messages array is required` and the provider is never called.
(The only bodies excluded are `null`/`undefined`, on which the initial
destructuring itself throws before validation.) -/
theorem nonarray_messages_400_no_model_call (body : Json) (rt : String)
    (h1 : body ≠ .null) (h2 : body ≠ .undefined)
    (h : isArr (body.get "messages") = false) :
    POSTrun body rt =
      ⟨400, .obj [("error", .str "Messages array is required")], false⟩ := by
  cases body <;> simp_all [POSTrun, handlerPrelude, Json.get]

/-- C7 witness: `messages` set to a string. -/
theorem nonarray_messages_400_witness :
    POSTrun (.obj [("messages", Json.str "oops")]) "reply" =
      ⟨400, .obj [("error", .str "Messages array is required")], false⟩ :=
  nonarray_messages_400_no_model_call (.obj [("messages", Json.str "oops")]) "reply"
    (fun h => nomatch h) (fun h => nomatch h) rfl

/-- C9 (amended): a request whose `messages` is the empty array and which
carries no (truthy) `fileData` passes the `messages` validation, the handler
reaches the provider call, and dereferencing the last element of the empty
formatted-message list throws, so the request ends in the generic catch-all
500, not in a 400 validation error. -/
theorem empty_messages_no_file_500 (bs : List (String × Json)) (rt : String)
    (hm : getF bs "messages" = .arr [])
    (hf : truthy (getF bs "fileData") = false) :
    POSTrun (.obj bs) rt =
      ⟨500, .obj [("error", .str "TypeError"), ("details", .str "API Error")], true⟩ ∧
    (POSTrun (.obj bs) rt).status ≠ 400 := by
  have h1 : handlerPrelude (.obj bs) = .proceed [] := by
    simp only [handlerPrelude, get_obj, hm, hf]
    simp [arrElems, mapE, truthy, isArr]
  have h2 : readLastText ([] : List Json) = .error .typeError := rfl
  have hrun : POSTrun (.obj bs) rt = catchResp .typeError true := by
    simp only [POSTrun, h1, h2]
  exact ⟨hrun.trans rfl, by rw [hrun]; decide⟩

/-- C9 witness: the minimal empty-messages request without `fileData`. -/
theorem empty_messages_no_file_500_witness :
    POSTrun (.obj [("messages", Json.arr [])]) "reply" =
      ⟨500, .obj [("error", .str "TypeError"), ("details", .str "API Error")], true⟩ ∧
    (POSTrun (.obj [("messages", Json.arr [])]) "reply").status ≠ 400 :=
  empty_messages_no_file_500 [("messages", Json.arr [])] "reply" rfl rfl

/-- C9 counterexample: the claim as stated says an empty-`messages` request
never ends in a 400; but with a truthy `fileData` lacking `base64` the file
validation returns 400 ("No file data") after the empty array passed the
messages validation. -/
theorem empty_messages_bad_file_400_cex :
    POSTrun (.obj [("messages", Json.arr []),
        ("fileData", Json.obj [("x", Json.num 1 0)])]) "reply" =
      ⟨400, .obj [("error", .str "No file data")], false⟩ ∧
    (POSTrun (.obj [("messages", Json.arr []),
        ("fileData", Json.obj [("x", Json.num 1 0)])]) "reply").status ≠ 500 :=
  ⟨rfl, by decide⟩

/-- C2 (amended): when the model's fenced JSON parses but `processToolResponse`
throws the invalid-structure error, the throw is caught by the local
chart-extraction `catch` (route.ts lines 254-256), which only logs: the
request still succeeds with HTTP 200, `toolUse` set to the parsed object and
`chartData` null - the client does not receive a 500. -/
theorem invalid_structure_swallowed_returns_200 (body : Json) (rt : String)
    (fm : List Json) (t : Json) (txt : String) (c : Json)
    (hpre : handlerPrelude body = .proceed fm)
    (hlast : readLastText fm = .ok t)
    (hex : extractJsonBlock rt = some txt)
    (hparse : jsonParse txt = some c)
    (hptr : processToolResponse c = .error .invalidStructure) :
    POSTrun body rt = ⟨200, .obj [("content", .str rt),
      ("hasToolUse", .bool (truthy c)), ("toolUse", c), ("chartData", .null)], true⟩ := by
  rw [POSTrun_proceed body rt fm t hpre hlast, chartPhase_ptr_err rt txt c _ hex hparse hptr]

/-- C2 witness: a concrete request whose model reply carries fenced JSON
without the required chart fields; the response is a 200 success body. -/
theorem invalid_structure_swallowed_witness :
    POSTrun sampleBody "x\n```json\n\x7b\"foo\":1\x7d\n```" =
      ⟨200, .obj [("content", .str "x\n```json\n\x7b\"foo\":1\x7d\n```"),
        ("hasToolUse", .bool (truthy (Json.obj [("foo", Json.num 1 0)]))),
        ("toolUse", .obj [("foo", Json.num 1 0)]), ("chartData", .null)], true⟩ :=
  invalid_structure_swallowed_returns_200 sampleBody "x\n```json\n\x7b\"foo\":1\x7d\n```"
    [.obj [("role", .str "user"), ("parts", .arr [.obj [("text", .str "hi")]])]]
    (.str "hi") "\x7b\"foo\":1\x7d" (.obj [("foo", Json.num 1 0)])
    rfl rfl rfl rfl rfl

/-- C2 counterexample: at the same concrete input, the status is 200 and not
500, and `chartData` is null - contradicting the claim that the whole request
fails with a generic HTTP 500. -/
theorem invalid_structure_cex_returns_200 :
    processToolResponse (.obj [("foo", Json.num 1 0)]) = .error .invalidStructure ∧
    (POSTrun sampleBody "x\n```json\n\x7b\"foo\":1\x7d\n```").status = 200 ∧
    (POSTrun sampleBody "x\n```json\n\x7b\"foo\":1\x7d\n```").status ≠ 500 ∧
    (POSTrun sampleBody "x\n```json\n\x7b\"foo\":1\x7d\n```").body.get "chartData" = .null :=
  ⟨rfl, rfl, by decide, rfl⟩

/-- C5 (amended): chart extraction requires the chart JSON to appear in a
```json fenced block of the model reply (route.ts line 246), not merely to be
the raw text; for every reply containing such a block whose content parses to
a truthy JSON value on which the normalizer succeeds, the 200 response
carries the normalized chart as a non-null (object) `chartData`. -/
theorem fenced_chart_extraction_succeeds (body : Json) (rt : String)
    (fm : List Json) (t : Json) (txt : String) (c r : Json)
    (hpre : handlerPrelude body = .proceed fm)
    (hlast : readLastText fm = .ok t)
    (hex : extractJsonBlock rt = some txt)
    (hparse : jsonParse txt = some c)
    (htr : truthy c = true)
    (hptr : processToolResponse c = .ok r) :
    POSTrun body rt = ⟨200, .obj [("content", .str rt), ("hasToolUse", .bool true),
      ("toolUse", c), ("chartData", r)], true⟩ ∧
    r ≠ .null ∧ ∃ gs, r = .obj gs := by
  obtain ⟨gs, rfl⟩ := ptr_ok_obj c r htr hptr
  refine ⟨?_, (fun h => nomatch h), gs, rfl⟩
  rw [POSTrun_proceed body rt fm t hpre hlast, chartPhase_ptr_ok rt txt c _ hex hparse hptr,
    htr]

/-- C5 witness: a reply with a fenced `chart_type`/`data`/`chartConfig` JSON
block produces a non-null normalized `chartData`. -/
theorem fenced_chart_extraction_witness :
    POSTrun sampleBody
        "ok\n```json\n\x7b\"chart_type\":\"bar\",\"data\":[1],\"chartConfig\":\x7b\"v\":\x7b\"label\":\"L\"\x7d\x7d\x7d\n```" =
      ⟨200, .obj [("content",
          .str "ok\n```json\n\x7b\"chart_type\":\"bar\",\"data\":[1],\"chartConfig\":\x7b\"v\":\x7b\"label\":\"L\"\x7d\x7d\x7d\n```"),
        ("hasToolUse", .bool true),
        ("toolUse", .obj [("chart_type", .str "bar"), ("data", .arr [.num 1 0]),
          ("chartConfig", .obj [("v", .obj [("label", .str "L")])])]),
        ("chartData", .obj [("chart_type", .str "bar"), ("data", .arr [.num 1 0]),
          ("chartConfig", .obj [("v", .obj [("label", .str "L"),
            ("color", .str "hsl(var(--chart-1))")])])])], true⟩ ∧
    Json.obj [("chart_type", Json.str "bar"), ("data", Json.arr [Json.num 1 0]),
      ("chartConfig", Json.obj [("v", Json.obj [("label", Json.str "L"),
        ("color", Json.str "hsl(var(--chart-1))")])])] ≠ Json.null ∧
    ∃ gs, Json.obj [("chart_type", Json.str "bar"), ("data", Json.arr [Json.num 1 0]),
      ("chartConfig", Json.obj [("v", Json.obj [("label", Json.str "L"),
        ("color", Json.str "hsl(var(--chart-1))")])])] = Json.obj gs :=
  fenced_chart_extraction_succeeds sampleBody
    "ok\n```json\n\x7b\"chart_type\":\"bar\",\"data\":[1],\"chartConfig\":\x7b\"v\":\x7b\"label\":\"L\"\x7d\x7d\x7d\n```"
    [.obj [("role", .str "user"), ("parts", .arr [.obj [("text", .str "hi")]])]]
    (.str "hi")
    "\x7b\"chart_type\":\"bar\",\"data\":[1],\"chartConfig\":\x7b\"v\":\x7b\"label\":\"L\"\x7d\x7d\x7d"
    (.obj [("chart_type", .str "bar"), ("data", .arr [.num 1 0]),
      ("chartConfig", .obj [("v", .obj [("label", .str "L")])])])
    (.obj [("chart_type", .str "bar"), ("data", .arr [.num 1 0]),
      ("chartConfig", .obj [("v", .obj [("label", .str "L"),
        ("color", .str "hsl(var(--chart-1))")])])])
    rfl rfl rfl rfl rfl rfl

/-- C5 counterexample: a model reply that is itself a valid JSON chart
description (object with non-empty `chartType`, array `data`) but carries no
```json fence yields `chartData: null` - being raw JSON is not sufficient for
chart extraction, contradicting the claim. -/
theorem bare_json_chart_yields_no_chartData :
    jsonParse "\x7b\"chartType\":\"pie\",\"config\":\x7b\"title\":\"t\",\"description\":\"d\"\x7d,\"data\":[],\"chartConfig\":\x7b\x7d\x7d" =
      some (.obj [("chartType", .str "pie"),
        ("config", .obj [("title", .str "t"), ("description", .str "d")]),
        ("data", .arr []), ("chartConfig", .obj [])]) ∧
    truthy ((Json.obj [("chartType", Json.str "pie"),
        ("config", Json.obj [("title", Json.str "t"), ("description", Json.str "d")]),
        ("data", Json.arr []), ("chartConfig", Json.obj [])]).get "chartType") = true ∧
    isArr ((Json.obj [("chartType", Json.str "pie"),
        ("config", Json.obj [("title", Json.str "t"), ("description", Json.str "d")]),
        ("data", Json.arr []), ("chartConfig", Json.obj [])]).get "data") = true ∧
    (POSTrun sampleBody
      "\x7b\"chartType\":\"pie\",\"config\":\x7b\"title\":\"t\",\"description\":\"d\"\x7d,\"data\":[],\"chartConfig\":\x7b\x7d\x7d").status = 200 ∧
    (POSTrun sampleBody
      "\x7b\"chartType\":\"pie\",\"config\":\x7b\"title\":\"t\",\"description\":\"d\"\x7d,\"data\":[],\"chartConfig\":\x7b\x7d\x7d").body.get "chartData" = .null :=
  ⟨rfl, rfl, rfl, rfl, rfl⟩

/-- C6: for every model reply whose fenced chart payload is not valid JSON,
no error reaches the caller: the request succeeds (HTTP 200) with
`chartData: null`, `toolUse: null`, `hasToolUse: false`, and the raw
narrative text returned as `content`. -/
theorem invalid_chart_json_still_succeeds (body : Json) (rt : String)
    (fm : List Json) (t : Json) (txt : String)
    (hpre : handlerPrelude body = .proceed fm)
    (hlast : readLastText fm = .ok t)
    (hex : extractJsonBlock rt = some txt)
    (hparse : jsonParse txt = none) :
    POSTrun body rt = ⟨200, .obj [("content", .str rt), ("hasToolUse", .bool false),
      ("toolUse", .null), ("chartData", .null)], true⟩ := by
  rw [POSTrun_proceed body rt fm t hpre hlast, chartPhase_no_parse rt txt hex hparse]

/-- C6 witness: a reply whose fenced block holds non-JSON text. -/
theorem invalid_chart_json_witness :
    POSTrun sampleBody "see\n```json\nnot json\n```" =
      ⟨200, .obj [("content", .str "see\n```json\nnot json\n```"),
        ("hasToolUse", .bool false), ("toolUse", .null), ("chartData", .null)], true⟩ :=
  invalid_chart_json_still_succeeds sampleBody "see\n```json\nnot json\n```"
    [.obj [("role", .str "user"), ("parts", .arr [.obj [("text", .str "hi")]])]]
    (.str "hi") "not json" rfl rfl rfl rfl

/-- C8 (amended): for every request with a textual attachment (`isText`
truthy) whose base64 decodes, the last formatted message is replaced by
exactly the string
`"File contents of " ++ fileName ++ ":\n\n" ++ decodedText ++ "\n\n" ++
originalLastMessageContent` - with a colon after the file name, as in
route.ts line 191 - and all earlier formatted messages are unchanged. -/
theorem text_attachment_splice (bs fds : List (String × Json)) (msgs : List Json)
    (lastm : Json) (txt : String)
    (hm : getF bs "messages" = .arr msgs)
    (hsafe : ∀ m ∈ msgs, m ≠ .null ∧ m ≠ .undefined)
    (hlast : msgs.getLast? = some lastm)
    (hlm1 : lastm ≠ .null) (hlm2 : lastm ≠ .undefined)
    (hfd : getF bs "fileData" = .obj fds)
    (hb64 : truthy (getF fds "base64") = true)
    (hit : truthy (getF fds "isText") = true)
    (hdec : decodeBase64Utf8 (jsToString (getF fds "base64")) = some txt) :
    handlerPrelude (.obj bs) = .proceed
      ((msgs.map (fun m => Json.obj [("role", .str (match m.get "role" with
            | .str s => if s = "user" then "user" else "model"
            | _ => "model")),
          ("parts", .arr [.obj [("text", m.get "content")]])])).set (msgs.length - 1)
        (.obj [("role", .str "user"),
               ("parts", .arr [.obj [("text", .str
                 ("File contents of " ++ jsToString (getF fds "fileName") ++ ":\n\n" ++
                  txt ++ "\n\n" ++ jsToString (lastm.get "content")))]])])) ∧
    ∀ i, i ≠ msgs.length - 1 →
      (((msgs.map (fun m => Json.obj [("role", .str (match m.get "role" with
            | .str s => if s = "user" then "user" else "model"
            | _ => "model")),
          ("parts", .arr [.obj [("text", m.get "content")]])])).set (msgs.length - 1)
        (.obj [("role", .str "user"),
               ("parts", .arr [.obj [("text", .str
                 ("File contents of " ++ jsToString (getF fds "fileName") ++ ":\n\n" ++
                  txt ++ "\n\n" ++ jsToString (lastm.get "content")))]])]))[i]?) =
      (msgs.map (fun m => Json.obj [("role", .str (match m.get "role" with
            | .str s => if s = "user" then "user" else "model"
            | _ => "model")),
          ("parts", .arr [.obj [("text", m.get "content")]])]))[i]? := by
  have hfm := mapE_ok formatMsg
    (fun m => Json.obj [("role", .str (match m.get "role" with
        | .str s => if s = "user" then "user" else "model"
        | _ => "model")),
      ("parts", .arr [.obj [("text", m.get "content")]])])
    msgs (fun m hm' => formatMsg_pure m (hsafe m hm').1 (hsafe m hm').2)
  have hget : jsGet ((msgs.getLast?).getD .undefined) "content" = .ok (lastm.get "content") := by
    rw [hlast]
    exact jsGet_of_ne lastm "content" hlm1 hlm2
  refine ⟨?_, fun i hi => List.getElem?_set_ne (fun h => hi h.symm)⟩
  have h400 : (!truthy (Json.arr msgs) || !isArr (Json.arr msgs)) = false := rfl
  simp only [handlerPrelude, get_obj, hm, hfd, h400, truthy_obj, arrElems, hfm, hb64,
    fileTry, hit, hdec, hget, List.length_map]
  simp

/-- C8 witness: the spec's example attachment - `notes.txt`, decoded content
`"Q1 rose 10%"`, original last message `"Summarize"`. -/
theorem text_attachment_splice_witness :
    handlerPrelude exampleFileBody = .proceed
      (([Json.obj [("role", Json.str "user"), ("content", Json.str "Summarize")]].map
        (fun m => Json.obj [("role", .str (match m.get "role" with
            | .str s => if s = "user" then "user" else "model"
            | _ => "model")),
          ("parts", .arr [.obj [("text", m.get "content")]])])).set 0
        (.obj [("role", .str "user"),
               ("parts", .arr [.obj [("text", .str
                 ("File contents of " ++
                  jsToString (getF [("base64", Json.str "UTEgcm9zZSAxMCU="),
                    ("mediaType", Json.str "text/plain"), ("isText", Json.bool true),
                    ("fileName", Json.str "notes.txt")] "fileName") ++ ":\n\n" ++
                  "Q1 rose 10%" ++ "\n\n" ++
                  jsToString ((Json.obj [("role", Json.str "user"),
                    ("content", Json.str "Summarize")]).get "content")))]])])) :=
  (text_attachment_splice
    [("messages", Json.arr [Json.obj [("role", Json.str "user"),
        ("content", Json.str "Summarize")]]),
     ("fileData", Json.obj [("base64", Json.str "UTEgcm9zZSAxMCU="),
        ("mediaType", Json.str "text/plain"), ("isText", Json.bool true),
        ("fileName", Json.str "notes.txt")])]
    [("base64", Json.str "UTEgcm9zZSAxMCU="), ("mediaType", Json.str "text/plain"),
     ("isText", Json.bool true), ("fileName", Json.str "notes.txt")]
    [Json.obj [("role", Json.str "user"), ("content", Json.str "Summarize")]]
    (Json.obj [("role", Json.str "user"), ("content", Json.str "Summarize")])
    "Q1 rose 10%"
    rfl
    (by
      intro m hm'
      simp only [List.mem_cons, List.not_mem_nil, or_false] at hm'
      subst hm'
      exact ⟨(fun h => nomatch h), (fun h => nomatch h)⟩)
    rfl (fun h => nomatch h) (fun h => nomatch h) rfl rfl rfl rfl).1

/-- C8 counterexample: the handler produces the spliced text with a colon
after the file name; the claim's format string, which has no colon, differs
from it. -/
theorem file_splice_has_colon_cex :
    handlerPrelude exampleFileBody = .proceed
      [.obj [("role", .str "user"),
             ("parts", .arr [.obj [("text", .str
               "File contents of notes.txt:\n\nQ1 rose 10%\n\nSummarize")]])]] ∧
    "File contents of notes.txt:\n\nQ1 rose 10%\n\nSummarize" ≠
      "File contents of " ++ "notes.txt" ++ "\n\n" ++ "Q1 rose 10%" ++ "\n\n" ++
        "Summarize" :=
  ⟨rfl, by decide⟩
